import Mathlib

/-!
Verification development for the Kotlin/Android project scaffolder
(`kotlin_project_setup.py`).  The script derives a directory list from a
package identifier, renders six fixed-shape text templates from the project
name, the package identifier and a few pinned version constants, and writes
them beneath an output root.  Machine strings are embedded as Lean `String`s,
the filesystem side effects as an explicit event trace interpreted over a
small filesystem state.
-/

namespace KotlinProjectSetup

/-- Class constant `GRADLE_VERSION = "8.5"` (declared in the source, unused by
the templates). -/
def GRADLE_VERSION : String := "8.5"

/-- Class constant `KOTLIN_VERSION = "1.9.21"`. -/
def KOTLIN_VERSION : String := "1.9.21"

/-- Class constant `COMPOSE_BOM = "2024.01.00"`. -/
def COMPOSE_BOM : String := "2024.01.00"

/-- Class constant `MIN_SDK = 24`. -/
def MIN_SDK : Nat := 24

/-- Class constant `TARGET_SDK = 34`. -/
def TARGET_SDK : Nat := 34

/-- The derived `self.package_path = package.replace(".", "/")`: every dot of
the package identifier becomes a path separator.  Since the pattern is a
single character, Python's `str.replace` is a character map. -/
def packagePath (pkg : String) : String :=
  String.mk (pkg.data.map (fun c => if c = '.' then '/' else c))

/-- The `directories` list of `create_structure`, a function of
`self.package_path`. -/
def directories (pp : String) : List String :=
  [ "app/src/main/kotlin/" ++ pp,
    "app/src/main/kotlin/" ++ pp ++ "/data/repository",
    "app/src/main/kotlin/" ++ pp ++ "/data/local",
    "app/src/main/kotlin/" ++ pp ++ "/data/remote",
    "app/src/main/kotlin/" ++ pp ++ "/domain/model",
    "app/src/main/kotlin/" ++ pp ++ "/domain/usecase",
    "app/src/main/kotlin/" ++ pp ++ "/ui/theme",
    "app/src/main/kotlin/" ++ pp ++ "/ui/components",
    "app/src/main/kotlin/" ++ pp ++ "/ui/screens",
    "app/src/main/kotlin/" ++ pp ++ "/di",
    "app/src/main/res/values",
    "app/src/test/kotlin/" ++ pp,
    "app/src/androidTest/kotlin/" ++ pp,
    "buildSrc/src/main/kotlin" ]

/-- Rendered root `build.gradle.kts` (the `root_build` f-string of
`create_build_files`; braces of the Gradle DSL appear as `\x7b`/`\x7d`). -/
def root_build : String :=
  "plugins \x7b\n    id(\"com.android.application\") version \"8.2.0\" apply false\n    id(\"com.android.library\") version \"8.2.0\" apply false\n    id(\"org.jetbrains.kotlin.android\") version \"" ++
  KOTLIN_VERSION ++
  "\" apply false\n    id(\"com.google.dagger.hilt.android\") version \"2.48\" apply false\n    id(\"com.google.devtools.ksp\") version \"" ++
  KOTLIN_VERSION ++
  "-1.0.15\" apply false\n\x7d\n\ntasks.register(\"clean\", Delete::class) \x7b\n    delete(rootProject.layout.buildDirectory)\n\x7d\n"

/-- Literal text of the `app_build` f-string before `namespace = "`. -/
def appBuildPlugins : String :=
  "plugins \x7b\n    id(\"com.android.application\")\n    id(\"org.jetbrains.kotlin.android\")\n    id(\"com.google.dagger.hilt.android\")\n    id(\"com.google.devtools.ksp\")\n\x7d\n\nandroid \x7b\n    "

/-- Literal text of the `app_build` f-string between `versionName` and the
`{self.COMPOSE_BOM}` interpolation. -/
def appBuildMiddle : String :=
  "\n\n        testInstrumentationRunner = \"androidx.test.runner.AndroidJUnitRunner\"\n    \x7d\n\n    buildTypes \x7b\n        release \x7b\n            isMinifyEnabled = true\n            isShrinkResources = true\n            proguardFiles(\n                getDefaultProguardFile(\"proguard-android-optimize.txt\"),\n                \"proguard-rules.pro\"\n            )\n        \x7d\n    \x7d\n\n    compileOptions \x7b\n        sourceCompatibility = JavaVersion.VERSION_17\n        targetCompatibility = JavaVersion.VERSION_17\n    \x7d\n\n    kotlinOptions \x7b\n        jvmTarget = \"17\"\n    \x7d\n\n    buildFeatures \x7b\n        compose = true\n    \x7d\n\n    composeOptions \x7b\n        kotlinCompilerExtensionVersion = \"1.5.7\"\n    \x7d\n\x7d\n\ndependencies \x7b\n    // Compose BOM\n    val composeBom = platform(\"androidx.compose:compose-bom:"

/-- Literal text of the `app_build` f-string after the `{self.COMPOSE_BOM}`
interpolation: the dependency block. -/
def appBuildDeps : String :=
  "\")\n    implementation(composeBom)\n    androidTestImplementation(composeBom)\n\n    // Compose\n    implementation(\"androidx.compose.ui:ui\")\n    implementation(\"androidx.compose.ui:ui-tooling-preview\")\n    implementation(\"androidx.compose.material3:material3\")\n    implementation(\"androidx.activity:activity-compose:1.8.2\")\n    implementation(\"androidx.lifecycle:lifecycle-viewmodel-compose:2.7.0\")\n    implementation(\"androidx.navigation:navigation-compose:2.7.6\")\n\n    // Hilt\n    implementation(\"com.google.dagger:hilt-android:2.48\")\n    ksp(\"com.google.dagger:hilt-compiler:2.48\")\n    implementation(\"androidx.hilt:hilt-navigation-compose:1.1.0\")\n\n    // Coroutines\n    implementation(\"org.jetbrains.kotlinx:kotlinx-coroutines-android:1.7.3\")\n\n    // Room\n    implementation(\"androidx.room:room-runtime:2.6.1\")\n    implementation(\"androidx.room:room-ktx:2.6.1\")\n    ksp(\"androidx.room:room-compiler:2.6.1\")\n\n    // Retrofit\n    implementation(\"com.squareup.retrofit2:retrofit:2.9.0\")\n    implementation(\"com.squareup.retrofit2:converter-gson:2.9.0\")\n    implementation(\"com.squareup.okhttp3:logging-interceptor:4.12.0\")\n\n    // Testing\n    testImplementation(\"junit:junit:4.13.2\")\n    testImplementation(\"io.mockk:mockk:1.13.8\")\n    testImplementation(\"org.jetbrains.kotlinx:kotlinx-coroutines-test:1.7.3\")\n    androidTestImplementation(\"androidx.test.ext:junit:1.1.5\")\n    androidTestImplementation(\"androidx.compose.ui:ui-test-junit4\")\n    debugImplementation(\"androidx.compose.ui:ui-tooling\")\n\x7d\n"

/-- Rendered `app/build.gradle.kts` (the `app_build` f-string of
`create_build_files`).  Interpolation points are `{self.package}`,
`{self.TARGET_SDK}`, `{self.package}`, `{self.MIN_SDK}`, `{self.TARGET_SDK}`
and `{self.COMPOSE_BOM}`; the surrounding literal text is identical to the
source and is merely written as a concatenation of adjacent literal pieces. -/
def app_build (pkg : String) : String :=
  appBuildPlugins ++ "namespace = \"" ++ pkg ++ "\"" ++
  "\n    " ++ "compileSdk = " ++ toString TARGET_SDK ++
  "\n\n    defaultConfig \x7b\n        " ++ "applicationId = \"" ++ pkg ++ "\"" ++
  "\n        minSdk = " ++ toString MIN_SDK ++
  "\n        " ++ "targetSdk = " ++ toString TARGET_SDK ++
  "\n        " ++ "versionCode = 1" ++
  "\n        " ++ "versionName = \"1.0.0\"" ++
  appBuildMiddle ++ COMPOSE_BOM ++ appBuildDeps

/-- Rendered `settings.gradle.kts` (the `settings` f-string of
`create_build_files`), interpolating `{self.name}` once. -/
def settings (name : String) : String :=
  "pluginManagement \x7b\n    repositories \x7b\n        google()\n        mavenCentral()\n        gradlePluginPortal()\n    \x7d\n\x7d\n\ndependencyResolutionManagement \x7b\n    repositoriesMode.set(RepositoriesMode.FAIL_ON_PROJECT_REPOS)\n    repositories \x7b\n        google()\n        mavenCentral()\n    \x7d\n\x7d\n\nrootProject.name = \"" ++
  name ++
  "\"\ninclude(\":app\")\n"

/-- Literal text of the `app_class` f-string between the `{self.package}`
and `{self.name}` interpolations, up to the keyword `class `. -/
def appClassImports : String :=
  "\n\nimport android.app.Application\nimport dagger.hilt.android.HiltAndroidApp\n\n@HiltAndroidApp\n"

/-- Rendered application class stub (the `app_class` f-string of
`create_application_class`), interpolating `{self.package}` and
`{self.name}`; the literal text is identical to the source and is merely
written as a concatenation of adjacent literal pieces. -/
def app_class (name pkg : String) : String :=
  "package " ++ pkg ++ appClassImports ++ "class " ++ name ++
  "Application : Application()\n"

/-- Rendered `MainActivity.kt` stub (the `main_activity` f-string of
`create_main_activity`), interpolating `{self.package}` twice and
`{self.name}` twice. -/
def main_activity (name pkg : String) : String :=
  "package " ++
  pkg ++
  "\n\nimport android.os.Bundle\nimport androidx.activity.ComponentActivity\nimport androidx.activity.compose.setContent\nimport androidx.compose.foundation.layout.fillMaxSize\nimport androidx.compose.material3.MaterialTheme\nimport androidx.compose.material3.Surface\nimport androidx.compose.ui.Modifier\nimport dagger.hilt.android.AndroidEntryPoint\nimport " ++
  pkg ++
  ".ui.theme." ++
  name ++
  "Theme\n\n@AndroidEntryPoint\nclass MainActivity : ComponentActivity() \x7b\n    override fun onCreate(savedInstanceState: Bundle?) \x7b\n        super.onCreate(savedInstanceState)\n        setContent \x7b\n            " ++
  name ++
  "Theme \x7b\n                Surface(\n                    modifier = Modifier.fillMaxSize(),\n                    color = MaterialTheme.colorScheme.background\n                ) \x7b\n                    // Navigation or main content here\n                \x7d\n            \x7d\n        \x7d\n    \x7d\n\x7d\n"

/-- Rendered `AndroidManifest.xml` (the `manifest` f-string of
`create_manifest`), interpolating `{self.name}` three times. -/
def manifest (name : String) : String :=
  "<?xml version=\"1.0\" encoding=\"utf-8\"?>\n<manifest xmlns:android=\"http://schemas.android.com/apk/res/android\">\n\n    <uses-permission android:name=\"android.permission.INTERNET\" />\n\n    <application\n        android:name=\"." ++
  name ++
  "Application\"\n        android:allowBackup=\"true\"\n        android:icon=\"@mipmap/ic_launcher\"\n        android:label=\"@string/app_name\"\n        android:roundIcon=\"@mipmap/ic_launcher_round\"\n        android:supportsRtl=\"true\"\n        android:theme=\"@style/Theme." ++
  name ++
  "\">\n        <activity\n            android:name=\".MainActivity\"\n            android:exported=\"true\"\n            android:theme=\"@style/Theme." ++
  name ++
  "\">\n            <intent-filter>\n                <action android:name=\"android.intent.action.MAIN\" />\n                <category android:name=\"android.intent.category.LAUNCHER\" />\n            </intent-filter>\n        </activity>\n    </application>\n\n</manifest>\n"

/-- Relative path of the application class stub written by
`create_application_class`: the f-string
`app/src/main/kotlin/{self.package_path}/{self.name}Application.kt`. -/
def appClassPath (name pkg : String) : String :=
  "app/src/main/kotlin/" ++ packagePath pkg ++ "/" ++ name ++ "Application.kt"

/-- Relative path of the main activity stub written by
`create_main_activity`: the f-string
`app/src/main/kotlin/{self.package_path}/MainActivity.kt`. -/
def mainActivityPath (pkg : String) : String :=
  "app/src/main/kotlin/" ++ packagePath pkg ++ "/MainActivity.kt"

/-- Parent directory of a relative path, mirroring `pathlib.Path(p).parent`
for the slash-separated relative paths the script writes: everything before
the last separator, or `"."` when there is none. -/
def parentDir (p : String) : String :=
  if p.data.contains '/' then
    String.mk (((p.data.reverse.dropWhile (fun c => c != '/')).drop 1).reverse)
  else "."

/-- One observable filesystem action of the script.  `mkdir` carries the
`exist_ok` flag passed at the call site (the source always passes
`parents=True`, so only `exist_ok` is modelled). -/
inductive Event where
  | mkdir (path : String) (existOk : Bool)
  | write (path : String) (content : String)

/-- Filesystem state, relative to the output root: the directories created so
far and an association list of file contents, most recent write first. -/
structure FS where
  dirs : List String
  files : List (String × String)

/-- A fresh (clean) output root. -/
def emptyFS : FS := ⟨[], []⟩

/-- Interpretation of one event.  `mkdir` with `exist_ok=True` never fails
(the source always passes it); with `exist_ok=False` an existing directory is
a `FileExistsError`.  `write` truncates/overwrites unconditionally. -/
def applyEventE (fs : FS) : Event → Except String FS
  | Event.mkdir p existOk =>
      if existOk then Except.ok ⟨p :: fs.dirs, fs.files⟩
      else if fs.dirs.contains p then Except.error ("FileExistsError: " ++ p)
      else Except.ok ⟨p :: fs.dirs, fs.files⟩
  | Event.write p c => Except.ok ⟨fs.dirs, (p, c) :: fs.files⟩

/-- Events of `_write_file(path, content)`: ensure the parent directory chain
exists (`parent.mkdir(parents=True, exist_ok=True)`), then write. -/
def write_file (path content : String) : List Event :=
  [Event.mkdir (parentDir path) true, Event.write path content]

/-- Events of `create_structure`: one `mkdir(parents=True, exist_ok=True)`
per planned directory, in list order. -/
def create_structure (pkg : String) : List Event :=
  (directories (packagePath pkg)).map (fun d => Event.mkdir d true)

/-- Events of `create_build_files`: root build descriptor, module build
descriptor, then the settings descriptor. -/
def create_build_files (name pkg : String) : List Event :=
  write_file "build.gradle.kts" root_build ++
  write_file "app/build.gradle.kts" (app_build pkg) ++
  write_file "settings.gradle.kts" (settings name)

/-- Events of `create_application_class`. -/
def create_application_class (name pkg : String) : List Event :=
  write_file (appClassPath name pkg) (app_class name pkg)

/-- Events of `create_main_activity`. -/
def create_main_activity (name pkg : String) : List Event :=
  write_file (mainActivityPath pkg) (main_activity name pkg)

/-- Events of `create_manifest`. -/
def create_manifest (name : String) : List Event :=
  write_file "app/src/main/AndroidManifest.xml" (manifest name)

/-- Events of `setup`: the five worker methods in their fixed call order. -/
def setup (name pkg : String) : List Event :=
  create_structure pkg ++
  create_build_files name pkg ++
  create_application_class name pkg ++
  create_main_activity name pkg ++
  create_manifest name

/-- Run the whole generation against a filesystem state. -/
def runSetup (name pkg : String) (fs : FS) : Except String FS :=
  List.foldlM applyEventE fs (setup name pkg)

/-- Content of a file in a filesystem state (most recent write wins). -/
def lookupFile (fs : FS) (p : String) : Option String :=
  (fs.files.find? (fun e => e.fst == p)).map Prod.snd

/-- The six generated files as stored in `FS.files` after one run against a
clean root (most recent write first). -/
def generatedFiles (name pkg : String) : List (String × String) :=
  [ ("app/src/main/AndroidManifest.xml", manifest name),
    (mainActivityPath pkg, main_activity name pkg),
    (appClassPath name pkg, app_class name pkg),
    ("settings.gradle.kts", settings name),
    ("app/build.gradle.kts", app_build pkg),
    ("build.gradle.kts", root_build) ]

/-- Filesystem state after one run against a clean root. -/
def firstRunFS (name pkg : String) : FS :=
  match runSetup name pkg emptyFS with
  | Except.ok fs => fs
  | Except.error _ => emptyFS

/-- Projection of an event to its written (path, content) pair, if any. -/
def writeOf : Event → Option (String × String)
  | Event.write p c => some (p, c)
  | Event.mkdir _ _ => none

/-- The ordered list of file writes among a list of events. -/
def writesOf (es : List Event) : List (String × String) :=
  es.filterMap writeOf

/-- One segment of a skeleton entry: literal text or the package
placeholder.  Modelled from the spec's description of the path planner as a
static skeleton with a package placeholder. -/
inductive Seg where
  | lit (s : String)
  | pkgSlot

/-- Replace the placeholder of one segment. -/
def renderSeg (pp : String) : Seg → String
  | Seg.lit s => s
  | Seg.pkgSlot => pp

/-- Render a skeleton entry by replacing every placeholder with the package
path and concatenating. -/
def renderEntry (pp : String) (t : List Seg) : String :=
  (t.map (renderSeg pp)).foldl (fun a b => a ++ b) ""

/-- The fixed ordered skeleton of the spec: fourteen relative directory
entries, with the package placeholder in the source and test trees. -/
def dirSkeleton : List (List Seg) :=
  [ [Seg.lit "app/src/main/kotlin/", Seg.pkgSlot],
    [Seg.lit "app/src/main/kotlin/", Seg.pkgSlot, Seg.lit "/data/repository"],
    [Seg.lit "app/src/main/kotlin/", Seg.pkgSlot, Seg.lit "/data/local"],
    [Seg.lit "app/src/main/kotlin/", Seg.pkgSlot, Seg.lit "/data/remote"],
    [Seg.lit "app/src/main/kotlin/", Seg.pkgSlot, Seg.lit "/domain/model"],
    [Seg.lit "app/src/main/kotlin/", Seg.pkgSlot, Seg.lit "/domain/usecase"],
    [Seg.lit "app/src/main/kotlin/", Seg.pkgSlot, Seg.lit "/ui/theme"],
    [Seg.lit "app/src/main/kotlin/", Seg.pkgSlot, Seg.lit "/ui/components"],
    [Seg.lit "app/src/main/kotlin/", Seg.pkgSlot, Seg.lit "/ui/screens"],
    [Seg.lit "app/src/main/kotlin/", Seg.pkgSlot, Seg.lit "/di"],
    [Seg.lit "app/src/main/res/values"],
    [Seg.lit "app/src/test/kotlin/", Seg.pkgSlot],
    [Seg.lit "app/src/androidTest/kotlin/", Seg.pkgSlot],
    [Seg.lit "buildSrc/src/main/kotlin"] ]

/-- Bool test: does `pat` occur at the head of `s`? -/
def leadMatch : List Char → List Char → Bool
  | [], _ => true
  | _ :: _, [] => false
  | p :: ps, c :: cs => p == c && leadMatch ps cs

/-- Bool test: does `pat` occur anywhere in `s`? -/
def hasSubAux (pat : List Char) : List Char → Bool
  | [] => leadMatch pat []
  | c :: cs => leadMatch pat (c :: cs) || hasSubAux pat cs

/-- Executable substring test on strings. -/
def containsSubstr (s pat : String) : Bool :=
  hasSubAux pat.data s.data

/-- Propositional substring occurrence: `sub` occurs in `s`. -/
def hasSubstr (s sub : String) : Prop :=
  ∃ a b, s = a ++ (sub ++ b)

/-- The path `p` denotes a file directly inside directory `d`: it is `d`,
a separator, and a final name containing no further separator. -/
def directlyInside (p d : String) : Prop :=
  ∃ f, ('/' ∉ f.data) ∧ p = d ++ ("/" ++ f)

/-- Parsed command-line arguments of `main`. -/
structure Args where
  name : String
  package : String
  output : String

/-- Declarative model of the `argparse` configuration in `main`: `--name`
and `--package` are required (parsing fails when either is absent), and
`--output` defaults to the current directory `"."`. -/
def parseArgs (nameArg packageArg outputArg : Option String) : Except String Args :=
  match nameArg, packageArg with
  | some n, some p => Except.ok ⟨n, p, outputArg.getD "."⟩
  | none, _ => Except.error "the following arguments are required: --name"
  | _, none => Except.error "the following arguments are required: --package"

/-- Model of `pathlib` joining (`Path(base) / child`, rendered as a string)
for the cases arising here: an absolute child stands alone, a `"."` or empty
base disappears, and a separator is inserted unless the base already ends in
one. -/
def pathJoin (base child : String) : String :=
  if child.data.head? = some '/' then child
  else if base = "." ∨ base = "" then child
  else if base.data.getLast? = some '/' then base ++ child
  else base ++ "/" ++ child

/-- The output root computed in `__init__`:
`self.output_dir = Path(output_dir) / name`. -/
def output_dir (name outputBase : String) : String :=
  pathJoin outputBase name

/-- Helper: `find?` over a self-appended list agrees with `find?` over the
list itself. -/
theorem find?_self_append {α : Type} (f : α → Bool) (l : List α) :
    List.find? f (l ++ l) = List.find? f l := by
  rw [List.find?_append]
  cases h : List.find? f l <;> simp

/-- Claim C1: for every package identifier `p`, the planner output is the
fixed ordered skeleton with the package placeholder replaced by `p` with
dots converted to path separators; in particular for `p = "com.example.app"`
the planned source and test tree paths contain the segment
`com/example/app`. -/
theorem planner_matches_skeleton :
    (∀ p, directories (packagePath p) = dirSkeleton.map (renderEntry (packagePath p))) ∧
    "app/src/main/kotlin/com/example/app" ∈ directories (packagePath "com.example.app") ∧
    "app/src/test/kotlin/com/example/app" ∈ directories (packagePath "com.example.app") ∧
    "app/src/androidTest/kotlin/com/example/app" ∈ directories (packagePath "com.example.app") :=
  ⟨fun _ => rfl, by decide, by decide, by decide⟩

/-- Claim C2: the generator is deterministic.  Two runs with the same
(name, package) inputs, each against a clean output root, produce the same
filesystem outcome, and the file contents are the fixed pure function
`generatedFiles` of the inputs alone (no timestamps or randomness). -/
theorem generator_deterministic (name pkg : String) (fs1 fs2 : FS)
    (h1 : fs1 = emptyFS) (h2 : fs2 = emptyFS) :
    ∃ out : FS, runSetup name pkg fs1 = Except.ok out ∧
      runSetup name pkg fs2 = Except.ok out ∧
      out.files = generatedFiles name pkg := by
  subst h1; subst h2
  exact ⟨_, rfl, rfl, rfl⟩

/-- Witness for C2 at name `"Demo"`, package `"com.example.app"`. -/
theorem generator_deterministic_w :
    ∃ out : FS, runSetup "Demo" "com.example.app" emptyFS = Except.ok out ∧
      runSetup "Demo" "com.example.app" emptyFS = Except.ok out ∧
      out.files = generatedFiles "Demo" "com.example.app" :=
  generator_deterministic "Demo" "com.example.app" emptyFS emptyFS rfl rfl

set_option maxRecDepth 10000 in
/-- Claim C3: for name `Foo` and package `com.bar.foo`, the application stub
declares the class `FooApplication`, the manifest references
`.FooApplication` as the application class, and the main-screen stub
references the theme `FooTheme`. -/
theorem foo_stub_names :
    containsSubstr (app_class "Foo" "com.bar.foo") "class FooApplication : Application()" = true ∧
    containsSubstr (manifest "Foo") "android:name=\".FooApplication\"" = true ∧
    containsSubstr (main_activity "Foo" "com.bar.foo") "FooTheme" = true :=
  ⟨by decide, by decide, by decide⟩

/-- Claim C4: for every input, the rendered module build descriptor contains
the package identifier verbatim as both the `namespace` value and the
`applicationId` value. -/
theorem module_build_namespace_app_id (pkg : String) :
    hasSubstr (app_build pkg) ("namespace = \"" ++ pkg ++ "\"") ∧
    hasSubstr (app_build pkg) ("applicationId = \"" ++ pkg ++ "\"") := by
  constructor
  · refine ⟨appBuildPlugins,
      "\n    " ++ "compileSdk = " ++ toString TARGET_SDK ++
      "\n\n    defaultConfig \x7b\n        " ++ "applicationId = \"" ++ pkg ++ "\"" ++
      "\n        minSdk = " ++ toString MIN_SDK ++
      "\n        " ++ "targetSdk = " ++ toString TARGET_SDK ++
      "\n        " ++ "versionCode = 1" ++
      "\n        " ++ "versionName = \"1.0.0\"" ++
      appBuildMiddle ++ COMPOSE_BOM ++ appBuildDeps, ?_⟩
    unfold app_build
    simp only [String.append_assoc]
  · refine ⟨appBuildPlugins ++ "namespace = \"" ++ pkg ++ "\"" ++
      "\n    " ++ "compileSdk = " ++ toString TARGET_SDK ++
      "\n\n    defaultConfig \x7b\n        ",
      "\n        minSdk = " ++ toString MIN_SDK ++
      "\n        " ++ "targetSdk = " ++ toString TARGET_SDK ++
      "\n        " ++ "versionCode = 1" ++
      "\n        " ++ "versionName = \"1.0.0\"" ++
      appBuildMiddle ++ COMPOSE_BOM ++ appBuildDeps, ?_⟩
    unfold app_build
    simp only [String.append_assoc]

/-- Claim C5: re-running against the output root already populated by a
first run raises no error on the existing directories, and overwrites every
generated file with identical content. -/
theorem rerun_idempotent (name pkg : String) :
    runSetup name pkg emptyFS = Except.ok (firstRunFS name pkg) ∧
    ∃ fs2, runSetup name pkg (firstRunFS name pkg) = Except.ok fs2 ∧
      ∀ p, lookupFile fs2 p = lookupFile (firstRunFS name pkg) p := by
  refine ⟨rfl, ⟨_, rfl, ?_⟩⟩
  intro p
  show (List.find? (fun e => e.fst == p)
        (generatedFiles name pkg ++ generatedFiles name pkg)).map Prod.snd
      = (List.find? (fun e => e.fst == p) (generatedFiles name pkg)).map Prod.snd
  rw [find?_self_append]

/-- Claim C6: every run first emits the planned-directory creations and then
exactly six file writes, in the fixed order root build, module build,
settings, application stub, main-screen stub, manifest; all six writes
happen after directory creation has completed. -/
theorem setup_fixed_order (name pkg : String) :
    ∃ t, setup name pkg =
        (directories (packagePath pkg)).map (fun d => Event.mkdir d true) ++ t ∧
      writesOf (setup name pkg) =
        [("build.gradle.kts", root_build),
         ("app/build.gradle.kts", app_build pkg),
         ("settings.gradle.kts", settings name),
         (appClassPath name pkg, app_class name pkg),
         (mainActivityPath pkg, main_activity name pkg),
         ("app/src/main/AndroidManifest.xml", manifest name)] ∧
      writesOf t = writesOf (setup name pkg) :=
  ⟨_, rfl, rfl, rfl⟩

/-- Claim C7: with the empty string as project name (and any package),
generation completes without error, the application stub declares a class
named `Application` after the interpolated empty name, and the stub file is
named `Application.kt`; no input validation intervenes. -/
theorem empty_name_completes (pkg : String) :
    (∃ out, runSetup "" pkg emptyFS = Except.ok out) ∧
    (∃ b, app_class "" pkg = "package " ++ (pkg ++ b) ∧
       containsSubstr b "\nclass Application : Application()" = true) ∧
    appClassPath "" pkg = "app/src/main/kotlin/" ++ packagePath pkg ++ "/" ++ "Application.kt" := by
  refine ⟨⟨_, rfl⟩,
    ⟨appClassImports ++ ("class " ++ "Application : Application()\n"), ?_, by decide⟩, ?_⟩
  · unfold app_class
    simp only [String.append_assoc, String.append_empty, String.empty_append]
  · unfold appClassPath
    simp only [String.append_empty]

/-- Claim C8: the output root is the caller-supplied base directory joined
with the project name, the base defaults to the current directory when the
output option is omitted, and the name and package options are required. -/
theorem cli_and_output_root (n p o : String) :
    parseArgs (some n) (some p) (some o) = Except.ok ⟨n, p, o⟩ ∧
    parseArgs (some n) (some p) none = Except.ok ⟨n, p, "."⟩ ∧
    (∃ e, parseArgs none (some p) (some o) = Except.error e) ∧
    (∃ e, parseArgs (some n) none (some o) = Except.error e) ∧
    output_dir n o = pathJoin o n ∧
    output_dir n "." = n ∧
    output_dir "MyApp" "/tmp/out" = "/tmp/out/MyApp" := by
  refine ⟨rfl, rfl, ⟨_, rfl⟩, ⟨_, rfl⟩, rfl, ?_, by decide⟩
  by_cases h : n.data.head? = some '/'
  · unfold output_dir pathJoin
    rw [if_pos h]
  · unfold output_dir pathJoin
    rw [if_neg h, if_pos (Or.inl rfl)]

/-- Counterexample to claim C9 as stated: for the (unvalidated) project name
`"a/b"` and package `"com.x"`, the application stub path
`app/src/main/kotlin/com/x/a/bApplication.kt` is not directly inside the
planned directory `app/src/main/kotlin/com/x`. -/
theorem stubs_inside_planned_cex :
    ¬ directlyInside (appClassPath "a/b" "com.x")
      ("app/src/main/kotlin/" ++ packagePath "com.x") := by
  intro h
  obtain ⟨f, hf, hp⟩ := h
  rw [show appClassPath "a/b" "com.x" = "app/src/main/kotlin/com/x/a/bApplication.kt" from rfl,
     show ("app/src/main/kotlin/" ++ packagePath "com.x" : String) = "app/src/main/kotlin/com/x" from rfl] at hp
  have h3 : ("app/src/main/kotlin/com/x/a/bApplication.kt" : String).data
      = ("app/src/main/kotlin/com/x/" : String).data ++ f.data := by
    rw [hp, String.data_append, String.data_append, ← List.append_assoc]
    exact congrArg (fun l => l ++ f.data) (by decide)
  have h5 := congrArg (List.drop 26) h3
  rw [List.drop_left' (by decide : ("app/src/main/kotlin/com/x/" : String).data.length = 26)] at h5
  rw [← h5] at hf
  exact hf (by decide)

/-- Claim C9 (amended): whenever the project name contains no path
separator, both Kotlin source stubs are written directly inside the
directory `app/src/main/kotlin/<package_path>`, and that directory is always
an entry of the planned directory list. -/
theorem stubs_inside_planned (name pkg : String) (h : '/' ∉ name.data) :
    directlyInside (appClassPath name pkg) ("app/src/main/kotlin/" ++ packagePath pkg) ∧
    directlyInside (mainActivityPath pkg) ("app/src/main/kotlin/" ++ packagePath pkg) ∧
    ("app/src/main/kotlin/" ++ packagePath pkg) ∈ directories (packagePath pkg) := by
  refine ⟨⟨name ++ "Application.kt", ?_, ?_⟩, ⟨"MainActivity.kt", by decide, rfl⟩, ?_⟩
  · rw [String.data_append]
    intro hmem
    rcases List.mem_append.mp hmem with h1 | h2
    · exact h h1
    · exact absurd h2 (by decide)
  · unfold appClassPath
    simp only [String.append_assoc]
  · exact List.Mem.head _

/-- Witness for the amended C9 at name `"Foo"`, package `"com.bar.foo"`. -/
theorem stubs_inside_planned_w :
    ('/' ∉ ("Foo" : String).data) ∧
    (directlyInside (appClassPath "Foo" "com.bar.foo")
        ("app/src/main/kotlin/" ++ packagePath "com.bar.foo") ∧
     directlyInside (mainActivityPath "com.bar.foo")
        ("app/src/main/kotlin/" ++ packagePath "com.bar.foo") ∧
     ("app/src/main/kotlin/" ++ packagePath "com.bar.foo") ∈
        directories (packagePath "com.bar.foo")) :=
  ⟨by decide, stubs_inside_planned "Foo" "com.bar.foo" (by decide)⟩

/-- Claim C10: the module build descriptor always emits `compileSdk` and
`targetSdk` from the single constant `TARGET_SDK = 34`, and always emits
`versionCode = 1` and `versionName = "1.0.0"`, independently of the
inputs. -/
theorem module_build_sdk_constants (pkg : String) :
    TARGET_SDK = 34 ∧
    hasSubstr (app_build pkg) ("compileSdk = " ++ toString TARGET_SDK) ∧
    hasSubstr (app_build pkg) ("targetSdk = " ++ toString TARGET_SDK) ∧
    hasSubstr (app_build pkg) "versionCode = 1" ∧
    hasSubstr (app_build pkg) "versionName = \"1.0.0\"" := by
  refine ⟨rfl, ?_, ?_, ?_, ?_⟩
  · refine ⟨appBuildPlugins ++ "namespace = \"" ++ pkg ++ "\"" ++ "\n    ",
      "\n\n    defaultConfig \x7b\n        " ++ "applicationId = \"" ++ pkg ++ "\"" ++
      "\n        minSdk = " ++ toString MIN_SDK ++
      "\n        " ++ "targetSdk = " ++ toString TARGET_SDK ++
      "\n        " ++ "versionCode = 1" ++
      "\n        " ++ "versionName = \"1.0.0\"" ++
      appBuildMiddle ++ COMPOSE_BOM ++ appBuildDeps, ?_⟩
    unfold app_build
    simp only [String.append_assoc]
  · refine ⟨appBuildPlugins ++ "namespace = \"" ++ pkg ++ "\"" ++
      "\n    " ++ "compileSdk = " ++ toString TARGET_SDK ++
      "\n\n    defaultConfig \x7b\n        " ++ "applicationId = \"" ++ pkg ++ "\"" ++
      "\n        minSdk = " ++ toString MIN_SDK ++ "\n        ",
      "\n        " ++ "versionCode = 1" ++
      "\n        " ++ "versionName = \"1.0.0\"" ++
      appBuildMiddle ++ COMPOSE_BOM ++ appBuildDeps, ?_⟩
    unfold app_build
    simp only [String.append_assoc]
  · refine ⟨appBuildPlugins ++ "namespace = \"" ++ pkg ++ "\"" ++
      "\n    " ++ "compileSdk = " ++ toString TARGET_SDK ++
      "\n\n    defaultConfig \x7b\n        " ++ "applicationId = \"" ++ pkg ++ "\"" ++
      "\n        minSdk = " ++ toString MIN_SDK ++
      "\n        " ++ "targetSdk = " ++ toString TARGET_SDK ++ "\n        ",
      "\n        " ++ "versionName = \"1.0.0\"" ++
      appBuildMiddle ++ COMPOSE_BOM ++ appBuildDeps, ?_⟩
    unfold app_build
    simp only [String.append_assoc]
  · refine ⟨appBuildPlugins ++ "namespace = \"" ++ pkg ++ "\"" ++
      "\n    " ++ "compileSdk = " ++ toString TARGET_SDK ++
      "\n\n    defaultConfig \x7b\n        " ++ "applicationId = \"" ++ pkg ++ "\"" ++
      "\n        minSdk = " ++ toString MIN_SDK ++
      "\n        " ++ "targetSdk = " ++ toString TARGET_SDK ++
      "\n        " ++ "versionCode = 1" ++ "\n        ",
      appBuildMiddle ++ COMPOSE_BOM ++ appBuildDeps, ?_⟩
    unfold app_build
    simp only [String.append_assoc]

end KotlinProjectSetup
